import Mathlib

/-!
Verification of the Live Currency Rate tool (src/tool.py) against its
natural-language specification.

The Python module is shallowly embedded: numeric amounts and rates are
modelled as exact rationals (the source computes with IEEE doubles; on every
concrete input evaluated in this development the two semantics agree),
fallible Python expressions (dict lookups, division, the notifier's
formatted-string construction) return `Except PyErr`, and the mutable
process state (the in-memory rate cache and the persisted update state) is
passed explicitly.  Network responses and the wall clock are inputs.
-/

set_option maxRecDepth 100000

namespace LiveCurrencyRate

/-- Python runtime errors that the embedded fragments can raise. -/
inductive PyErr where
  | zeroDivisionError
  | keyError (key : String)
  | nameError (name : String)
deriving DecidableEq, Repr

/-- The text `str(e)` produces for each modelled Python exception. -/
def err_str : PyErr → String
  | .zeroDivisionError => "float division by zero"
  | .keyError k => "'" ++ k ++ "'"
  | .nameError n => "name '" ++ n ++ "' is not defined"

/-- Python division `a / b`: raises `ZeroDivisionError` when `b == 0`. -/
def pydiv (a b : ℚ) : Except PyErr ℚ :=
  if b = 0 then .error .zeroDivisionError else .ok (a / b)

/-- `crypto_currencies = ["BTC", "ETH", "SOL"]` (src/tool.py lines 167, 272). -/
def crypto_currencies : List String := ["BTC", "ETH", "SOL"]

/-- Python dict lookup `rates[k]`: raises `KeyError` when `k` is absent. -/
def ratesGet (rates : List (String × ℚ)) (k : String) : Except PyErr ℚ :=
  match List.lookup k rates with
  | some v => .ok v
  | none => .error (.keyError k)

/-- The conversion formula of `convert_currency` (src/tool.py lines 272-309):
three cases on whether the source or target code equals the base, with the
crypto codes BTC/ETH/SOL multiplied or divided in the opposite direction to
fiat codes. -/
def convFormula (base : String) (rates : List (String × ℚ))
    (from_currency to_currency : String) (amount : ℚ) : Except PyErr ℚ :=
  if from_currency = base then
    if crypto_currencies.contains to_currency then
      match ratesGet rates to_currency with
      | .error e => .error e
      | .ok r => pydiv amount r
    else
      match ratesGet rates to_currency with
      | .error e => .error e
      | .ok r => .ok (amount * r)
  else if to_currency = base then
    if crypto_currencies.contains from_currency then
      match ratesGet rates from_currency with
      | .error e => .error e
      | .ok r => .ok (amount * r)
    else
      match ratesGet rates from_currency with
      | .error e => .error e
      | .ok r => pydiv amount r
  else
    match
      ((if crypto_currencies.contains from_currency then
        match ratesGet rates from_currency with
        | .error e => .error e
        | .ok r => .ok (amount * r)
      else
        match ratesGet rates from_currency with
        | .error e => .error e
        | .ok r => pydiv amount r) : Except PyErr ℚ) with
    | .error e => .error e
    | .ok usd_value =>
      if crypto_currencies.contains to_currency then
        match ratesGet rates to_currency with
        | .error e => .error e
        | .ok r => pydiv usd_value r
      else
        match ratesGet rates to_currency with
        | .error e => .error e
        | .ok r => .ok (usd_value * r)

/-- Spec wording (spec.md section 4.2), rule for converting a
base-denominated value into the target code: `to` is crypto ?
`amount / rates[to]` : `amount * rates[to]`. -/
def spec_base_to_target (rates : List (String × ℚ)) (to_currency : String)
    (v : ℚ) : Except PyErr ℚ :=
  if crypto_currencies.contains to_currency then
    match ratesGet rates to_currency with
    | .error e => .error e
    | .ok r => pydiv v r
  else
    match ratesGet rates to_currency with
    | .error e => .error e
    | .ok r => .ok (v * r)

/-- Spec wording (spec.md section 4.2), converting an amount of `from` into a
base-denominated value: `amount * rates[from]` if crypto, else
`amount / rates[from]`. -/
def spec_source_to_base (rates : List (String × ℚ)) (from_currency : String)
    (amount : ℚ) : Except PyErr ℚ :=
  if crypto_currencies.contains from_currency then
    match ratesGet rates from_currency with
    | .error e => .error e
    | .ok r => .ok (amount * r)
  else
    match ratesGet rates from_currency with
    | .error e => .error e
    | .ok r => pydiv amount r

/-- The conversion formula as the spec words it: three cases, cross pairs go
through the base value and then reuse the `from == base` rule. -/
def spec_convert (base : String) (rates : List (String × ℚ))
    (from_currency to_currency : String) (amount : ℚ) : Except PyErr ℚ :=
  if from_currency = base then
    spec_base_to_target rates to_currency amount
  else if to_currency = base then
    spec_source_to_base rates from_currency amount
  else
    match spec_source_to_base rates from_currency amount with
    | .error e => .error e
    | .ok usd_value => spec_base_to_target rates to_currency usd_value

/-- A code is valid for the table when it equals the base or is a key of
`rates` (src/tool.py lines 259-265). -/
def validCode (base : String) (rates : List (String × ℚ)) (c : String) : Prop :=
  c = base ∨ (List.lookup c rates).isSome

/-- The JSON payload of the rate endpoint after the `.get` defaults of
src/tool.py lines 250-252 have been applied. -/
structure RatesJson where
  base : String
  rates : List (String × ℚ)
  updated : String
deriving DecidableEq, Repr

/-- The in-memory cache `self.cache = {"data": None, "timestamp": 0}`. -/
structure Cache where
  data : Option RatesJson
  timestamp : ℚ
deriving DecidableEq, Repr

instance {ε α : Type} [DecidableEq ε] [DecidableEq α] : DecidableEq (Except ε α) :=
  fun x y =>
  match x, y with
  | .ok a, .ok b =>
    if h : a = b then .isTrue (h ▸ rfl) else .isFalse (fun heq => h (Except.ok.inj heq))
  | .error a, .error b =>
    if h : a = b then .isTrue (h ▸ rfl) else .isFalse (fun heq => h (Except.error.inj heq))
  | .ok _, .error _ => .isFalse (fun heq => Except.noConfusion heq)
  | .error _, .ok _ => .isFalse (fun heq => Except.noConfusion heq)

/-- Observable outcome of one `_fetch_rates` call: the returned table or the
raised message, the cache afterwards, and whether the network was hit. -/
structure FetchOutcome where
  result : Except String RatesJson
  cache : Cache
  networkCalled : Bool
deriving DecidableEq, Repr

/-- The fetch-or-fallback part of `_fetch_rates` (src/tool.py lines 149-163):
on success replace the cache (data and timestamp together), on failure return
stale cached data if present, else raise. -/
def fetch_network (cache : Cache) (now : ℚ)
    (net : Except String RatesJson) : FetchOutcome :=
  match net with
  | .ok data => ⟨.ok data, ⟨some data, now⟩, true⟩
  | .error e =>
    match cache.data with
    | some d => ⟨.ok d, cache, true⟩
    | none => ⟨.error ("Failed to fetch currency rates: " ++ e), cache, true⟩

/-- `_fetch_rates` (src/tool.py lines 137-163).  `net` is the outcome the
network would produce if contacted: `.ok` bundles a 2xx response with a
well-formed body, `.error` any requests/HTTP/parse failure text. -/
def fetch_rates (cacheDuration : ℚ) (cache : Cache) (now : ℚ)
    (net : Except String RatesJson) : FetchOutcome :=
  match cache.data with
  | some d =>
    if now - cache.timestamp < cacheDuration then ⟨.ok d, cache, false⟩
    else fetch_network cache now net
  | none => fetch_network cache now net

/-! String helpers modelling the Python string primitives the module uses.
They are written over `List Char` by structural recursion so that concrete
evaluations reduce inside the kernel. -/

/-- Python `str.upper()` (ASCII, which is all the module feeds it). -/
def pyUpper (s : String) : String := ⟨s.data.map Char.toUpper⟩

/-- Python `str.strip()` with no argument: remove leading and trailing
whitespace. -/
def pyStrip (s : String) : String :=
  ⟨((s.data.dropWhile Char.isWhitespace).reverse.dropWhile Char.isWhitespace).reverse⟩

/-- Python `str.rstrip(c)` for a one-character set: remove every trailing
occurrence of `c`. -/
def pyRstrip (s : String) (c : Char) : String :=
  ⟨(s.data.reverse.dropWhile (· == c)).reverse⟩

/-- Interleave thousands separators into a reversed digit list: a comma after
every third digit consumed, counting from the decimal point. -/
def commasRev : List Char → Nat → List Char
  | [], _ => []
  | c :: cs, k => if 3 ≤ k then ',' :: c :: commasRev cs 1 else c :: commasRev cs (k + 1)

/-- Thousands separators of Python's `,` format spec, applied to the digit
string of the integer part. -/
def insertThousands (s : String) : String :=
  ⟨(commasRev s.data.reverse 0).reverse⟩

/-- Left-pad a digit string with zeros to the requested width. -/
def padZeros (s : String) (n : Nat) : String :=
  ⟨List.replicate (n - s.data.length) '0' ++ s.data⟩

/-- Round `num / den` to the nearest integer, ties to even (`den ≠ 0`
expected).  This is the rounding Python's fixed-point float formatting
performs. -/
def roundHalfEven (num den : Nat) : Nat :=
  let q := num / den
  let r := num % den
  if 2 * r < den then q
  else if den < 2 * r then q + 1
  else if q % 2 = 0 then q else q + 1

/-- Python `f"{q:,.{decimals}f}"` over an exact rational: round to `decimals`
places, group the integer part with commas, zero-pad the fraction.  (The
source formats IEEE doubles; on the inputs evaluated in this development the
double and the exact rational round to the same digit string.) -/
def pyCommaFormat (q : ℚ) (decimals : Nat) : String :=
  let sgn := if q < 0 then "-" else ""
  let scaledNum := q.num.natAbs * 10 ^ decimals
  let m := roundHalfEven scaledNum q.den
  let ipart := m / 10 ^ decimals
  let fpart := m % 10 ^ decimals
  sgn ++ insertThousands (Nat.repr ipart) ++
    (if decimals = 0 then "" else "." ++ padZeros (Nat.repr fpart) decimals)

/-- `_format_amount` (src/tool.py lines 165-179): crypto codes get 8 decimals
with trailing zeros and a trailing point stripped; fiat gets 2 decimals from
100 up, 4 decimals from 1 up, else 6 decimals with the same stripping. -/
def format_amount (amount : ℚ) (currency : String) : String :=
  if crypto_currencies.contains currency then
    pyRstrip (pyRstrip (pyCommaFormat amount 8) '0') '.'
  else
    if amount ≥ 100 then pyCommaFormat amount 2
    else if amount ≥ 1 then pyCommaFormat amount 4
    else pyRstrip (pyRstrip (pyCommaFormat amount 6) '0') '.'

/-- The static display-name table of `_get_currency_name`
(src/tool.py lines 181-219). -/
def currency_names : List (String × String) :=
  [("USD", "United States Dollar ($)"),
   ("EUR", "Euro (€)"),
   ("JPY", "Japanese Yen (¥)"),
   ("GBP", "British Pound (£)"),
   ("CNY", "Chinese Yuan (¥)"),
   ("AUD", "Australian Dollar (A$)"),
   ("CAD", "Canadian Dollar (C$)"),
   ("CHF", "Swiss Franc (Fr)"),
   ("HKD", "Hong Kong Dollar (HK$)"),
   ("SGD", "Singapore Dollar (S$)"),
   ("NZD", "New Zealand Dollar (NZ$)"),
   ("SEK", "Swedish Krona (kr)"),
   ("KRW", "South Korean Won (₩)"),
   ("NOK", "Norwegian Krone (kr)"),
   ("INR", "Indian Rupee (₹)"),
   ("MXN", "Mexican Peso ($)"),
   ("BRL", "Brazilian Real (R$)"),
   ("ZAR", "South African Rand (R)"),
   ("TRY", "Turkish Lira (₺)"),
   ("DKK", "Danish Krone (kr)"),
   ("PLN", "Polish Zloty (zł)"),
   ("CZK", "Czech Koruna (Kč)"),
   ("ILS", "Israeli New Shekel (₪)"),
   ("THB", "Thai Baht (฿)"),
   ("MYR", "Malaysian Ringgit (RM)"),
   ("PHP", "Philippine Peso (₱)"),
   ("IDR", "Indonesian Rupiah (Rp)"),
   ("HUF", "Hungarian Forint (Ft)"),
   ("RON", "Romanian Leu (lei)"),
   ("BGN", "Bulgarian Lev (лв)"),
   ("ISK", "Icelandic Króna (kr)"),
   ("BTC", "Bitcoin (BTC)"),
   ("SOL", "Solana (SOL)"),
   ("ETH", "Ethereum (ETH)")]

/-- `_get_currency_name` (src/tool.py lines 181-219): `names.get(code, code)`. -/
def get_currency_name (code : String) : String :=
  (List.lookup code currency_names).getD code

/-- Stable ascending insertion used to model Python's `sorted`. -/
def insertSorted (x : String) : List String → List String
  | [] => [x]
  | y :: ys => if x ≤ y then x :: y :: ys else y :: insertSorted x ys

/-- Python `sorted` on a list of strings. -/
def sortStrings (l : List String) : List String := l.foldr insertSorted []

/-- The hint of the unknown-currency message (src/tool.py lines 260, 264):
`", ".join(sorted(rates.keys())[:20])`. -/
def available_hint (rates : List (String × ℚ)) : String :=
  String.intercalate ", " ((sortStrings (rates.map Prod.fst)).take 20)

/-! Datetime values and the parts of `datetime.fromisoformat` /
`datetime.strftime` that the module exercises. -/

/-- A naive Python `datetime` down to microseconds (time zones are stripped
before parsing and never inspected afterwards). -/
structure PyDateTime where
  year : Nat
  month : Nat
  day : Nat
  hour : Nat := 0
  minute : Nat := 0
  second : Nat := 0
  microsecond : Nat := 0
deriving DecidableEq, Repr

/-- Split a character list on a separator, Python `str.split(sep)` style
(an empty input yields one empty field). -/
def splitOnChar (sep : Char) : List Char → List (List Char)
  | [] => [[]]
  | c :: rest =>
    let r := splitOnChar sep rest
    if c == sep then [] :: r
    else
      match r with
      | [] => [[c]]
      | g :: gs => (c :: g) :: gs

/-- Parse a nonempty all-digit character list. -/
def digitsVal (cs : List Char) : Option Nat :=
  if cs.isEmpty then none
  else if cs.all Char.isDigit then
    some (cs.foldl (fun acc c => acc * 10 + (c.toNat - 48)) 0)
  else none

/-- Parse the `YYYY-MM-DD` part of an ISO-8601 string, rejecting out-of-range
fields as `datetime.fromisoformat` does (day validity is checked against 31
rather than the month length; the strings this module parses never reach that
difference). -/
def parse_iso_date (cs : List Char) : Option (Nat × Nat × Nat) :=
  match splitOnChar '-' cs with
  | [y, m, d] =>
    if y.length = 4 ∧ m.length = 2 ∧ d.length = 2 then
      match digitsVal y, digitsVal m, digitsVal d with
      | some yv, some mv, some dv =>
        if 1 ≤ mv ∧ mv ≤ 12 ∧ 1 ≤ dv ∧ dv ≤ 31 then some (yv, mv, dv) else none
      | _, _, _ => none
    else none
  | _ => none

/-- Parse the `HH:MM[:SS[.ffffff]]` part of an ISO-8601 string, returning
hour, minute, second and microsecond.  A fraction of 1 to 6 digits is scaled
to microseconds, as `datetime.fromisoformat` scales it. -/
def parse_iso_time (cs : List Char) : Option (Nat × Nat × Nat × Nat) :=
  match splitOnChar ':' cs with
  | [h, m] =>
    if h.length = 2 ∧ m.length = 2 then
      match digitsVal h, digitsVal m with
      | some hv, some mv =>
        if hv ≤ 23 ∧ mv ≤ 59 then some (hv, mv, 0, 0) else none
      | _, _ => none
    else none
  | [h, m, srest] =>
    match splitOnChar '.' srest with
    | [s] =>
      if h.length = 2 ∧ m.length = 2 ∧ s.length = 2 then
        match digitsVal h, digitsVal m, digitsVal s with
        | some hv, some mv, some sv =>
          if hv ≤ 23 ∧ mv ≤ 59 ∧ sv ≤ 59 then some (hv, mv, sv, 0) else none
        | _, _, _ => none
      else none
    | [s, frac] =>
      if h.length = 2 ∧ m.length = 2 ∧ s.length = 2 ∧
          1 ≤ frac.length ∧ frac.length ≤ 6 then
        match digitsVal h, digitsVal m, digitsVal s, digitsVal frac with
        | some hv, some mv, some sv, some fv =>
          if hv ≤ 23 ∧ mv ≤ 59 ∧ sv ≤ 59 then
            some (hv, mv, sv, fv * 10 ^ (6 - frac.length))
          else none
        | _, _, _, _ => none
      else none
    | _ => none
  | _ => none

/-- Does the first list start the second? -/
def startsWith : List Char → List Char → Bool
  | [], _ => true
  | _ :: _, [] => false
  | p :: ps, c :: cs => p == c && startsWith ps cs

/-- Remove one trailing `+00:00` UTC offset if present (the only offset the
module ever produces, via `updated.replace("Z", "+00:00")`). -/
def dropUtcOffset (cs : List Char) : List Char :=
  let r := cs.reverse
  if startsWith "00:00+".data r then (r.drop 6).reverse else cs

/-- `datetime.fromisoformat`, modelled for the extended ISO shapes this
module reads and writes: `YYYY-MM-DD`, optionally followed by one separator
character of any kind (matching `isoformat(sep=...)`, usually `T` or a
space) and `HH:MM[:SS[.f{1,6}]]` — in particular the microsecond timestamps
`_save_state` persists via `datetime.now().isoformat()` — optionally
followed by a `+00:00` offset (the only offset the module produces, via
`updated.replace("Z", "+00:00")`).  Anything else, such as compact basic
forms without dashes that the module never emits, is treated as a
`ValueError`, i.e. `none`. -/
def fromisoformat (s : String) : Option PyDateTime :=
  let cs := dropUtcOffset s.data
  match parse_iso_date (cs.take 10) with
  | none => none
  | some dv =>
    match cs.drop 10 with
    | [] => some ⟨dv.1, dv.2.1, dv.2.2, 0, 0, 0, 0⟩
    | _ :: timeChars =>
      match parse_iso_time timeChars with
      | some tv => some ⟨dv.1, dv.2.1, dv.2.2, tv.1, tv.2.1, tv.2.2.1, tv.2.2.2⟩
      | none => none

/-- Python `updated.replace("Z", "+00:00")` (src/tool.py line 325). -/
def replaceZ (s : String) : String :=
  ⟨s.data.foldr (fun c acc => if c == 'Z' then "+00:00".data ++ acc else c :: acc) []⟩

/-- Two-digit zero-padded field. -/
def pad2 (n : Nat) : String := padZeros (Nat.repr n) 2

/-- `dt.strftime("%Y-%m-%d %H:%M:%S UTC")` (src/tool.py line 327). -/
def strftime_ymd_hms (dt : PyDateTime) : String :=
  padZeros (Nat.repr dt.year) 4 ++ "-" ++ pad2 dt.month ++ "-" ++ pad2 dt.day ++ " " ++
    pad2 dt.hour ++ ":" ++ pad2 dt.minute ++ ":" ++ pad2 dt.second ++ " UTC"

/-- The update-time suffix of the conversion response
(src/tool.py lines 322-330); a bare `except` turns any parse failure into an
empty suffix. -/
def update_time_str (updated : String) : String :=
  if updated == "" then ""
  else
    match fromisoformat (replaceZ updated) with
    | some dt => "\n🕐 Updated: " ++ strftime_ymd_hms dt
    | none => ""

/-- The numeric core of `convert_currency`: the conversion result
(src/tool.py lines 276-309) followed by the unit rate `result / amount`
(line 312). -/
def convert_core (base : String) (rates : List (String × ℚ))
    (from_currency to_currency : String) (amount : ℚ) : Except PyErr (ℚ × ℚ) :=
  (convFormula base rates from_currency to_currency amount).bind fun result =>
    (pydiv result amount).map fun rate => (result, rate)

/-- `convert_currency` (src/tool.py lines 221-342) as a function of the
explicit state: the configured cache duration, the cache, the clock, the
network outcome, and the arguments.  Returns the text handed to the host and
the cache afterwards.  The outer `except Exception` renders every raised
error as an `"❌ Error: ..."` string. -/
def convert_currency (cacheDuration : ℚ) (cache : Cache) (now : ℚ)
    (net : Except String RatesJson) (from_currency : String)
    (to_currency : Option String) (amount : ℚ) : String × Cache :=
  match fetch_rates cacheDuration cache now net with
  | ⟨.error msg, cache', _⟩ => ("❌ Error: " ++ msg, cache')
  | ⟨.ok data, cache', _⟩ =>
    let rates := data.rates
    let base := data.base
    let fromC := pyStrip (pyUpper from_currency)
    let toC :=
      match to_currency with
      | none => base
      | some t => if t == "" then base else pyStrip (pyUpper t)
    if (List.lookup fromC rates).isNone && !(fromC == base) then
      ("❌ Currency '" ++ fromC ++ "' not found. Available currencies include: " ++
        available_hint rates ++ "...", cache')
    else if (List.lookup toC rates).isNone && !(toC == base) then
      ("❌ Currency '" ++ toC ++ "' not found. Available currencies include: " ++
        available_hint rates ++ "...", cache')
    else
      match convert_core base rates fromC toC amount with
      | .error e => ("❌ Error: " ++ err_str e, cache')
      | .ok (result, rate) =>
        ("💱 **Currency Conversion**\n\n" ++
          "**" ++ format_amount amount fromC ++ " " ++ fromC ++ "** (" ++
          get_currency_name fromC ++ ")\n" ++
          "= **" ++ format_amount result toC ++ " " ++ toC ++ "** (" ++
          get_currency_name toC ++ ")\n\n" ++
          "📊 Rate: 1 " ++ fromC ++ " = " ++ format_amount rate toC ++ " " ++ toC ++
          update_time_str data.updated, cache')

/-! The update notifier and its persisted state. -/

/-- `CURRENT_VERSION` (src/tool.py line 39). -/
def CURRENT_VERSION : String := "0.1.0"

/-- The well-typed view of `self.update_state` that the notifier methods
read and write (the source keeps it as a plain dict with these four keys,
`latest_version`/`latest_url` being null or strings). -/
structure UpdateState where
  last_check : PyDateTime
  latest_version : Option String
  latest_url : Option String
  has_shown_notification : Bool
deriving DecidableEq, Repr

/-- A parsed JSON document, as `json.load` returns it (objects carry no
duplicate keys, later occurrences having overwritten earlier ones during
parsing). -/
inductive JsonValue where
  | null
  | bool (b : Bool)
  | num (q : ℚ)
  | str (s : String)
  | arr (elems : List JsonValue)
  | obj (entries : List (String × JsonValue))

/-- What reading the state file can yield: no file (`FileNotFoundError`),
text that is not JSON (`json.JSONDecodeError`), or any parsed JSON
document — including documents that are not objects or whose fields are
arbitrarily typed. -/
inductive StateFile where
  | absent
  | malformed
  | parsed (v : JsonValue)

/-- The exceptions `_load_state` raises past its own `except` clause, which
catches only `FileNotFoundError`, `json.JSONDecodeError` and `ValueError`:
`data.get(...)` on a non-dict JSON value raises `AttributeError`, and
`datetime.fromisoformat` applied to a non-string value raises `TypeError`. -/
inductive LoadError where
  | attributeError
  | typeError
deriving DecidableEq, Repr

/-- What `_load_state` returns on success: the parsed dict with its
`last_check` entry replaced by a datetime.  `fields` holds the dict's other
entries unchanged (the source keeps everything in one dict; entry order is
never observed). -/
structure LoadedState where
  last_check : PyDateTime
  fields : List (String × JsonValue)

/-- The default dict built by the `except` arm of `_load_state`
(src/tool.py lines 56-62). -/
def default_loaded_state : LoadedState :=
  ⟨⟨2024, 1, 1, 0, 0, 0, 0⟩,
   [("latest_version", .null), ("latest_url", .null),
    ("has_shown_notification", .bool false)]⟩

/-- `_load_state` (src/tool.py lines 50-62): parse the file and convert
`last_check` from ISO text.  `FileNotFoundError`, `JSONDecodeError` and the
`ValueError` of a bad date string fall back to the defaults; but a JSON
document that is not an object crashes in `data.get` with `AttributeError`,
and a `last_check` value that is not a string crashes in `fromisoformat`
with `TypeError` — neither is caught. -/
def load_state : StateFile → Except LoadError LoadedState
  | .absent => .ok default_loaded_state
  | .malformed => .ok default_loaded_state
  | .parsed v =>
    match v with
    | .obj entries =>
      match (List.lookup "last_check" entries).getD (.str "2024-01-01") with
      | .str s =>
        match fromisoformat s with
        | none => .ok default_loaded_state
        | some dt => .ok ⟨dt, entries.filter (fun p => !(p.1 == "last_check"))⟩
      | _ => .error .typeError
    | _ => .error .attributeError

/-- Release versions as `packaging.version` parses the plain `X.Y.Z` strings
this project uses; anything that is not dot-separated numbers is an
`InvalidVersion` (a `ValueError`), i.e. `none`. -/
def parseVersion (s : String) : Option (List Nat) :=
  (splitOnChar '.' s.data).mapM digitsVal

/-- Lexicographic order on equal-length release tuples. -/
def lexLt : List Nat → List Nat → Bool
  | [], [] => false
  | [], _ :: _ => true
  | _ :: _, [] => false
  | x :: xs, y :: ys => decide (x < y) || (decide (x = y) && lexLt xs ys)

/-- `packaging.version` comparison: release tuples compare componentwise
after zero-padding to a common length. -/
def versionLt (a b : List Nat) : Bool :=
  let n := max a.length b.length
  lexLt (a ++ List.replicate (n - a.length) 0) (b ++ List.replicate (n - b.length) 0)

/-- `_get_update_notification` (src/tool.py lines 96-112).  When the stored
version is strictly newer than `CURRENT_VERSION`, line 105 evaluates the
f-string `f"**🔔 {EXT_TITLE} Update Available!**..."`; `EXT_TITLE` is a class
attribute referenced without `self.`, which is unbound in method scope, so
CPython raises `NameError` there — and the surrounding
`except (ValueError, TypeError)` does not catch it.  Unparsable versions do
hit that handler and fall through to `return ""`. -/
def get_update_notification (st : UpdateState) : Except PyErr String :=
  match st.latest_version with
  | none => .ok ""
  | some lv =>
    if lv == "" then .ok ""
    else
      match parseVersion lv, parseVersion CURRENT_VERSION with
      | some l, some c =>
        if versionLt c l then .error (.nameError "EXT_TITLE") else .ok ""
      | _, _ => .ok ""

/-- `_check_github_release` (src/tool.py lines 73-94).  `response` is
`some (tag_name, html_url)` for a 200 response with a JSON body, `none` for
any request failure; the `finally` block updates `last_check` either way. -/
def check_github_release (st : UpdateState) (response : Option (String × String))
    (now : PyDateTime) : UpdateState :=
  match response with
  | some (tag, url) =>
    let new_version : String := ⟨tag.data.dropWhile (· == 'v')⟩
    let version_changed := st.latest_version ≠ some new_version
    let st' := { st with latest_version := some new_version, latest_url := some url }
    let st'' := if version_changed then { st' with has_shown_notification := false } else st'
    { st'' with last_check := now }
  | none => { st with last_check := now }

/-- The notify half of `_check_and_notify_updates` (src/tool.py
lines 128-133): when nothing has been shown yet and an event emitter is
available, build the notification and, if nonempty, emit it once and mark the
state.  The error of `get_update_notification` propagates past this function,
as nothing here catches it. -/
def notify_step (st : UpdateState) (hasEmitter : Bool) :
    Except PyErr (List String × UpdateState) :=
  if !st.has_shown_notification && hasEmitter then
    match get_update_notification st with
    | .error e => .error e
    | .ok notif =>
      if notif == "" then .ok ([], st)
      else .ok ([notif], { st with has_shown_notification := true })
  else .ok ([], st)

/-- `_check_and_notify_updates` (src/tool.py lines 124-133).  `shouldCheck`
is the value `_should_check_for_updates(user)` computes from the valve, the
user role and the 24-hour clock; `releaseResponse` is the release endpoint's
answer if it is consulted.  The returned list holds the messages sent through
the event emitter. -/
def check_and_notify_updates (st : UpdateState) (shouldCheck : Bool)
    (releaseResponse : Option (String × String)) (now : PyDateTime)
    (hasEmitter : Bool) : Except PyErr (List String × UpdateState) :=
  notify_step (if shouldCheck then check_github_release st releaseResponse now else st)
    hasEmitter

/-- One host invocation of the `convert_currency` tool, carried out over the
full process state.  The source of `convert_currency` (src/tool.py
lines 221-342) never reads or writes `self.update_state`, never calls
`_check_and_notify_updates`, and does not even receive an event emitter
parameter, so the update state passes through untouched and no notification
message is emitted. -/
def convert_currency_invocation (cacheDuration : ℚ) (cache : Cache)
    (ust : UpdateState) (now : ℚ) (net : Except String RatesJson)
    (from_currency : String) (to_currency : Option String) (amount : ℚ)
    (_hasEmitter : Bool) : String × Cache × UpdateState × List String :=
  let r := convert_currency cacheDuration cache now net from_currency to_currency amount
  (r.1, r.2, ust, [])

/-- `get_crypto_price` (src/tool.py lines 344-363): delegates to
`convert_currency` with `amount = 1.0`. -/
def get_crypto_price_invocation (cacheDuration : ℚ) (cache : Cache)
    (ust : UpdateState) (now : ℚ) (net : Except String RatesJson)
    (crypto : String) (currency : String) (hasEmitter : Bool) :
    String × Cache × UpdateState × List String :=
  convert_currency_invocation cacheDuration cache ust now net crypto (some currency) 1
    hasEmitter

/-- A small rate table shared by the concrete evaluations below. -/
def sampleTable : RatesJson := ⟨"USD", [("EUR", 2), ("BTC", 3)], ""⟩

/-! ## Claims -/

/-- C1: for every pair of valid currency codes and every amount, the
conversion result is computed by the spec's three cases — from base
(divide for crypto targets, multiply for fiat), to base (multiply for crypto
sources, divide for fiat), and cross pairs through a base-denominated value
reusing the from-base rule. -/
theorem conv_formula_three_cases (base : String) (rates : List (String × ℚ))
    (f t : String) (a : ℚ) (_hf : validCode base rates f)
    (_ht : validCode base rates t) :
    convFormula base rates f t a = spec_convert base rates f t a := rfl

theorem conv_formula_three_cases_witness :
    validCode "USD" sampleTable.rates "BTC" ∧ validCode "USD" sampleTable.rates "EUR" ∧
    convFormula "USD" sampleTable.rates "BTC" "EUR" 2 =
      spec_convert "USD" sampleTable.rates "BTC" "EUR" 2 :=
  ⟨Or.inr (by with_unfolding_all rfl), Or.inr (by with_unfolding_all rfl),
    conv_formula_three_cases "USD" sampleTable.rates "BTC" "EUR" 2
      (Or.inr (by with_unfolding_all rfl)) (Or.inr (by with_unfolding_all rfl))⟩

/-- C2 counterexample: identity conversion fails in the `X == base` branch —
the formula looks up `rates[base]`, which is not a key, so the source raises
`KeyError` instead of returning the amount. -/
theorem convert_identity_base_counterexample :
    convFormula "USD" sampleTable.rates "USD" "USD" 5 ≠ Except.ok 5 := by
  with_unfolding_all decide

/-- C2 (amended): identity conversion holds for every non-base code with a
nonzero rate; for `X = base` (base is not a key of the table) the conversion
raises `KeyError` on `rates[base]` instead. -/
theorem convert_identity_amended :
    (∀ (base : String) (rates : List (String × ℚ)) (X : String) (a r : ℚ),
      X ≠ base → List.lookup X rates = some r → r ≠ 0 →
      convFormula base rates X X a = .ok a)
    ∧ (∀ (base : String) (rates : List (String × ℚ)) (a : ℚ),
      List.lookup base rates = none →
      convFormula base rates base base a = .error (.keyError base)) := by
  constructor
  · intro base rates X a r hX hl hr
    cases hc : crypto_currencies.contains X with
    | true =>
      simp only [convFormula, if_neg hX, hc, if_true, ratesGet, hl, pydiv,
        if_neg hr]
      rw [mul_div_cancel_right₀ a hr]
    | false =>
      simp only [convFormula, if_neg hX, hc, Bool.false_eq_true, if_false,
        ratesGet, hl, pydiv, if_neg hr]
      rw [div_mul_cancel₀ a hr]
  · intro base rates a h
    cases hc : crypto_currencies.contains base with
    | true => simp [convFormula, ratesGet, h, hc]
    | false => simp [convFormula, ratesGet, h, hc]

theorem convert_identity_amended_witness :
    ("EUR" : String) ≠ "USD" ∧
    List.lookup "EUR" sampleTable.rates = some 2 ∧ (2 : ℚ) ≠ 0 ∧
    convFormula "USD" sampleTable.rates "EUR" "EUR" 7 = .ok 7 :=
  ⟨by decide, by with_unfolding_all rfl, by norm_num,
    convert_identity_amended.1 "USD" sampleTable.rates "EUR" 7 2 (by decide)
      (by with_unfolding_all rfl) (by norm_num)⟩

/-- C3: the cached fetch fails only when the network fails and no cached data
exists; a failed fetch with cached data returns the cached table and leaves
the cache unchanged; a failed fetch with no cached data surfaces the fetch
error. -/
theorem fetch_failure_semantics :
    (∀ (cd : ℚ) (c : Cache) (now : ℚ) (net : Except String RatesJson)
      (msg : String), (fetch_rates cd c now net).result = .error msg →
      c.data = none ∧ ∃ e, net = .error e ∧
        msg = "Failed to fetch currency rates: " ++ e)
    ∧ (∀ (cd : ℚ) (c : Cache) (now : ℚ) (d : RatesJson) (e : String),
      c.data = some d →
      (fetch_rates cd c now (.error e)).result = .ok d ∧
        (fetch_rates cd c now (.error e)).cache = c)
    ∧ (∀ (cd : ℚ) (c : Cache) (now : ℚ) (e : String), c.data = none →
      (fetch_rates cd c now (.error e)).result =
        .error ("Failed to fetch currency rates: " ++ e)) := by
  refine ⟨?_, ?_, ?_⟩
  · intro cd c now net msg h
    rcases c with ⟨cdata, ts⟩
    cases cdata with
    | some d =>
      exfalso
      revert h
      simp only [fetch_rates, fetch_network]
      split_ifs <;> cases net <;> simp
    | none =>
      refine ⟨rfl, ?_⟩
      revert h
      simp only [fetch_rates, fetch_network]
      cases net with
      | ok v => simp
      | error e => intro h; exact ⟨e, rfl, (Except.error.inj h).symm⟩
  · intro cd c now d e h
    rcases c with ⟨cdata, ts⟩
    cases h
    simp only [fetch_rates, fetch_network]
    split_ifs <;> simp
  · intro cd c now e h
    rcases c with ⟨cdata, ts⟩
    cases h
    simp [fetch_rates, fetch_network]

theorem fetch_failure_semantics_witness :
    ((⟨none, 0⟩ : Cache).data = none) ∧
    (fetch_rates 180 ⟨none, 0⟩ 0 (.error "boom")).result =
      .error ("Failed to fetch currency rates: " ++ "boom") :=
  ⟨rfl, fetch_failure_semantics.2.2 180 ⟨none, 0⟩ 0 "boom" rfl⟩

/-- C7: fresh cached data short-circuits the network entirely, so of two
calls inside the cache window only the first touches the network, and a call
after the window elapses touches it again. -/
theorem cache_freshness :
    (∀ (cd : ℚ) (c : Cache) (now : ℚ) (net : Except String RatesJson)
      (d : RatesJson), c.data = some d → now - c.timestamp < cd →
      fetch_rates cd c now net = ⟨.ok d, c, false⟩)
    ∧ (∀ (cd t0 t1 : ℚ) (c0 : Cache) (d : RatesJson)
      (net2 : Except String RatesJson), c0.data = none →
      (fetch_rates cd c0 t0 (.ok d)).networkCalled = true ∧
      (fetch_rates cd c0 t0 (.ok d)).cache = ⟨some d, t0⟩ ∧
      (t1 - t0 < cd →
        (fetch_rates cd ⟨some d, t0⟩ t1 net2).networkCalled = false) ∧
      (cd ≤ t1 - t0 →
        (fetch_rates cd ⟨some d, t0⟩ t1 net2).networkCalled = true)) := by
  constructor
  · intro cd c now net d h hfresh
    rcases c with ⟨cdata, ts⟩
    cases h
    simp only [fetch_rates]
    rw [if_pos hfresh]
  · intro cd t0 t1 c0 d net2 h
    rcases c0 with ⟨cdata, ts⟩
    cases h
    refine ⟨rfl, rfl, ?_, ?_⟩
    · intro hfresh
      simp only [fetch_rates]
      rw [if_pos hfresh]
    · intro hstale
      simp only [fetch_rates]
      rw [if_neg (not_lt.mpr hstale)]
      cases net2 <;> simp [fetch_network]

theorem cache_freshness_witness :
    ((⟨none, 0⟩ : Cache).data = none) ∧ ((100 : ℚ) - 0 < 180) ∧ ((180 : ℚ) ≤ 200 - 0) ∧
    (fetch_rates 180 ⟨none, 0⟩ 0 (.ok sampleTable)).networkCalled = true ∧
    (fetch_rates 180 ⟨none, 0⟩ 0 (.ok sampleTable)).cache = ⟨some sampleTable, 0⟩ ∧
    (fetch_rates 180 ⟨some sampleTable, 0⟩ 100 (.error "down")).networkCalled = false ∧
    (fetch_rates 180 ⟨some sampleTable, 0⟩ 200 (.error "down")).networkCalled = true := by
  obtain ⟨h1, h2, h3, h4⟩ :=
    cache_freshness.2 180 0 100 ⟨none, 0⟩ sampleTable (.error "down") rfl
  obtain ⟨-, -, -, h5⟩ :=
    cache_freshness.2 180 0 200 ⟨none, 0⟩ sampleTable (.error "down") rfl
  exact ⟨rfl, by norm_num, by norm_num, h1, h2, h3 (by norm_num), h5 (by norm_num)⟩

/-- C10: a failed fetch that serves stale data leaves the cache — data and
timestamp — unchanged, so every later call that is still outside the cache
window attempts the network again. -/
theorem stale_fallback_keeps_timestamp :
    ∀ (cd : ℚ) (c : Cache) (now : ℚ) (e : String) (d : RatesJson),
      c.data = some d → cd ≤ now - c.timestamp →
      fetch_rates cd c now (.error e) = ⟨.ok d, c, true⟩ ∧
      (∀ (now' : ℚ) (net' : Except String RatesJson), cd ≤ now' - c.timestamp →
        (fetch_rates cd c now' net').networkCalled = true) := by
  intro cd c now e d h hstale
  rcases c with ⟨cdata, ts⟩
  cases h
  constructor
  · simp only [fetch_rates]
    rw [if_neg (not_lt.mpr hstale)]
    simp [fetch_network]
  · intro now' net' hstale'
    simp only [fetch_rates]
    rw [if_neg (not_lt.mpr hstale')]
    cases net' <;> simp [fetch_network]

theorem stale_fallback_keeps_timestamp_witness :
    ((⟨some sampleTable, 0⟩ : Cache).data = some sampleTable) ∧
    ((180 : ℚ) ≤ 300 - 0) ∧
    fetch_rates 180 ⟨some sampleTable, 0⟩ 300 (.error "down") =
      ⟨.ok sampleTable, ⟨some sampleTable, 0⟩, true⟩ ∧
    (fetch_rates 180 ⟨some sampleTable, 0⟩ 500 (.error "still down")).networkCalled
      = true := by
  obtain ⟨h1, h2⟩ := stale_fallback_keeps_timestamp 180 ⟨some sampleTable, 0⟩ 300
    "down" sampleTable rfl (by norm_num)
  exact ⟨rfl, by norm_num, h1, h2 500 (.error "still down") (by norm_num)⟩

/-- C4 counterexample: with `amount = 0` the conversion does propagate the
division error — `rate = result / amount` raises `ZeroDivisionError`, the
outer handler renders it, and no conversion is displayed. -/
theorem zero_amount_counterexample :
    (convert_currency 180 ⟨none, 0⟩ 0 (.ok sampleTable) "USD" (some "EUR") 0).1 =
      "❌ Error: float division by zero" := by
  with_unfolding_all decide

/-- C4 (amended): `amount == 0` makes the unit-rate division raise
`ZeroDivisionError`, which the tool's outer handler converts into an
`"❌ Error: float division by zero"` reply instead of a conversion display;
any nonzero amount — negative ones included, there is no sign validation —
goes through with `rate = result / amount`. -/
theorem zero_amount_rate_error :
    (∀ (base : String) (rates : List (String × ℚ)) (f t : String) (res : ℚ),
      convFormula base rates f t 0 = .ok res →
      convert_core base rates f t 0 = .error .zeroDivisionError)
    ∧ (∀ (base : String) (rates : List (String × ℚ)) (f t : String) (a res : ℚ),
      a ≠ 0 → convFormula base rates f t a = .ok res →
      convert_core base rates f t a = .ok (res, res / a))
    ∧ (convert_currency 180 ⟨none, 0⟩ 0 (.ok sampleTable) "USD" (some "EUR") (-5)).1 =
      "💱 **Currency Conversion**\n\n**-5 USD** (United States Dollar ($))\n= **-10 EUR** (Euro (€))\n\n📊 Rate: 1 USD = 2.0000 EUR" := by
  refine ⟨?_, ?_, by with_unfolding_all decide⟩
  · intro base rates f t res h
    simp [convert_core, h, pydiv, Except.bind, Except.map]
  · intro base rates f t a res ha h
    simp [convert_core, h, pydiv, ha, Except.bind, Except.map]

theorem zero_amount_rate_error_witness :
    convFormula "USD" sampleTable.rates "USD" "EUR" 0 = .ok 0 ∧
    convert_core "USD" sampleTable.rates "USD" "EUR" 0 = .error .zeroDivisionError :=
  ⟨by with_unfolding_all rfl,
    zero_amount_rate_error.1 "USD" sampleTable.rates "USD" "EUR" 0
      (by with_unfolding_all rfl)⟩

/-- C8: crypto amounts are rendered at 8 decimals and then stripped of
trailing zeros and a trailing point; fiat amounts get 2 decimals at 100 and
above, 4 decimals from 1 below 100, and otherwise 6 decimals with the same
stripping; the spec's three examples evaluate accordingly. -/
theorem format_amount_spec :
    (∀ (a : ℚ) (code : String), crypto_currencies.contains code = true →
      format_amount a code = pyRstrip (pyRstrip (pyCommaFormat a 8) '0') '.')
    ∧ (∀ (a : ℚ) (code : String), crypto_currencies.contains code = false →
      100 ≤ a → format_amount a code = pyCommaFormat a 2)
    ∧ (∀ (a : ℚ) (code : String), crypto_currencies.contains code = false →
      1 ≤ a → a < 100 → format_amount a code = pyCommaFormat a 4)
    ∧ (∀ (a : ℚ) (code : String), crypto_currencies.contains code = false →
      a < 1 → format_amount a code = pyRstrip (pyRstrip (pyCommaFormat a 6) '0') '.')
    ∧ format_amount 1234.5 "USD" = "1,234.50"
    ∧ format_amount 0.123456789 "BTC" = "0.12345679"
    ∧ format_amount 0.5 "USD" = "0.5" := by
  refine ⟨?_, ?_, ?_, ?_, by with_unfolding_all decide,
    by with_unfolding_all decide, by with_unfolding_all decide⟩
  · intro a code h
    simp only [format_amount, h, if_true]
  · intro a code h h100
    simp only [format_amount, h, Bool.false_eq_true, if_false]
    rw [if_pos h100]
  · intro a code h h1 h100
    simp only [format_amount, h, Bool.false_eq_true, if_false]
    rw [if_neg (not_le.mpr h100), if_pos h1]
  · intro a code h h1
    simp only [format_amount, h, Bool.false_eq_true, if_false]
    rw [if_neg (not_le.mpr (lt_of_lt_of_le h1 (by norm_num))),
      if_neg (not_le.mpr h1)]

theorem format_amount_spec_witness :
    crypto_currencies.contains "USD" = false ∧ (1 : ℚ) ≤ 50 ∧ (50 : ℚ) < 100 ∧
    format_amount 50 "USD" = pyCommaFormat 50 4 :=
  ⟨rfl, by norm_num, by norm_num,
    format_amount_spec.2.2.1 50 "USD" rfl (by norm_num) (by norm_num)⟩

/-- C9 counterexample: loading does not succeed for every content of the
state file — a JSON document that is a list makes `data.get(...)` raise an
uncaught `AttributeError`, so `_load_state` crashes instead of returning any
state. -/
theorem load_state_list_counterexample :
    load_state (.parsed (.arr [.num 1, .num 2, .num 3])) =
      .error .attributeError := rfl

/-- C9 (amended): the loader returns the default state (last check
2024-01-01, no known latest version or url, notification not shown) exactly
on the caught error paths — file absent, content that is not JSON, or a
`last_check` string that does not parse as a date.  It does not tolerate
every content: JSON that is not an object raises an uncaught
`AttributeError`, and a non-string `last_check` value raises an uncaught
`TypeError`.  The microsecond ISO timestamps the module itself persists load
back as the stored state, not as the defaults. -/
theorem load_state_amended :
    (∀ f : StateFile,
      (f = .absent ∨ f = .malformed ∨
        (∃ entries s, f = .parsed (.obj entries) ∧
          List.lookup "last_check" entries = some (.str s) ∧
          fromisoformat s = none)) →
      load_state f = .ok default_loaded_state)
    ∧ (∀ v : JsonValue, (∀ entries, v ≠ .obj entries) →
      load_state (.parsed v) = .error .attributeError)
    ∧ (∀ (entries : List (String × JsonValue)) (jv : JsonValue),
      List.lookup "last_check" entries = some jv → (∀ s, jv ≠ .str s) →
      load_state (.parsed (.obj entries)) = .error .typeError)
    ∧ load_state (.parsed (.obj
        [("last_check", .str "2025-06-01T12:34:56.789012"),
         ("latest_version", .str "0.2.0"), ("latest_url", .str "u"),
         ("has_shown_notification", .bool true)])) =
      .ok ⟨⟨2025, 6, 1, 12, 34, 56, 789012⟩,
        [("latest_version", .str "0.2.0"), ("latest_url", .str "u"),
         ("has_shown_notification", .bool true)]⟩ := by
  refine ⟨?_, ?_, ?_, by with_unfolding_all rfl⟩
  · rintro f (rfl | rfl | ⟨entries, s, rfl, hl, hp⟩)
    · rfl
    · rfl
    · simp [load_state, hl, hp]
  · intro v h
    cases v with
    | obj entries => exact absurd rfl (h entries)
    | null => rfl
    | bool b => rfl
    | num q => rfl
    | str s => rfl
    | arr l => rfl
  · intro entries jv hl hns
    cases jv with
    | str s => exact absurd rfl (hns s)
    | null => simp [load_state, hl]
    | bool b => simp [load_state, hl]
    | num q => simp [load_state, hl]
    | arr l => simp [load_state, hl]
    | obj o => simp [load_state, hl]

theorem load_state_amended_witness :
    List.lookup "last_check" [("last_check", JsonValue.str "garbage")] =
      some (.str "garbage") ∧
    fromisoformat "garbage" = none ∧
    load_state (.parsed (.obj [("last_check", .str "garbage")])) =
      .ok default_loaded_state :=
  ⟨rfl, by with_unfolding_all rfl,
    load_state_amended.1 (.parsed (.obj [("last_check", .str "garbage")]))
      (Or.inr (Or.inr ⟨[("last_check", .str "garbage")], "garbage", rfl, rfl,
        by with_unfolding_all rfl⟩))⟩

/-- C5: on the claim's own scenario — stored latest version `"0.2.0"`, running
version `"0.1.0"`, nothing shown yet, an emitter available — the notify call
does not emit a message: building the notification text raises
`NameError("EXT_TITLE")` (src/tool.py line 105 reads the class attribute
without `self.`), and that error is not caught.  Unparsable version strings
are, as claimed, suppressed silently. -/
theorem notify_newer_version_name_error :
    check_and_notify_updates ⟨⟨2024, 1, 1, 0, 0, 0, 0⟩, some "0.2.0", some "u", false⟩
        false none ⟨2025, 6, 1, 0, 0, 0, 0⟩ true = .error (.nameError "EXT_TITLE")
    ∧ check_and_notify_updates
        ⟨⟨2024, 1, 1, 0, 0, 0, 0⟩, some "garbage", some "u", false⟩
        false none ⟨2025, 6, 1, 0, 0, 0, 0⟩ true =
      .ok ([], ⟨⟨2024, 1, 1, 0, 0, 0, 0⟩, some "garbage", some "u", false⟩) :=
  ⟨by with_unfolding_all rfl, by with_unfolding_all rfl⟩

/-- C6: no tool invocation runs the update notifier.  Every call of the
conversion tool (and of the price-lookup tool that delegates to it) passes
the update state through untouched and emits nothing, even though on the
sample state the notify transition would not be a no-op — the notifier is
never reached from any tool entry point in the source. -/
theorem tools_do_not_run_notifier :
    (∀ (cd : ℚ) (cache : Cache) (ust : UpdateState) (now : ℚ)
      (net : Except String RatesJson) (f : String) (t : Option String) (a : ℚ)
      (he : Bool),
      (convert_currency_invocation cd cache ust now net f t a he).2.2.1 = ust ∧
      (convert_currency_invocation cd cache ust now net f t a he).2.2.2 = [])
    ∧ (∀ (cd : ℚ) (cache : Cache) (ust : UpdateState) (now : ℚ)
      (net : Except String RatesJson) (cr cu : String) (he : Bool),
      (get_crypto_price_invocation cd cache ust now net cr cu he).2.2.1 = ust ∧
      (get_crypto_price_invocation cd cache ust now net cr cu he).2.2.2 = [])
    ∧ notify_step ⟨⟨2024, 1, 1, 0, 0, 0, 0⟩, some "0.2.0", some "u", false⟩ true ≠
        .ok ([], ⟨⟨2024, 1, 1, 0, 0, 0, 0⟩, some "0.2.0", some "u", false⟩) :=
  ⟨fun _ _ _ _ _ _ _ _ _ => ⟨rfl, rfl⟩, fun _ _ _ _ _ _ _ _ => ⟨rfl, rfl⟩,
    by with_unfolding_all decide⟩

end LiveCurrencyRate
